import Mathlib

/-!
Shallow embedding of the coordination core of `src/Cloud-Node/src/main.rs`
(UDP Bully variant with successor fast-path).

Machine integers (`u32`) are modelled as `Nat` (no arithmetic in the source
can overflow: ids are only compared), `SystemTime` as a `Nat` tick count,
`HashMap<u32, SystemTime>` as an association list with replace-on-insert,
and the UDP sends as an explicit list of `(destination id, message)` pairs.
Every handler receives the current time `now` explicitly (the source calls
`SystemTime::now()` / `current_timestamp()`).
-/

/-- Wire messages, mirroring the `Message` enum of `main.rs` (lines 11-43). -/
inductive Message where
  | Discovery (sender_id : Nat) (timestamp : Nat)
  | LeaderAnnounce (leader_id : Nat) (timestamp : Nat)
  | Election (sender_id : Nat) (timestamp : Nat)
  | ElectionOk (sender_id : Nat) (timestamp : Nat)
  | Coordinator (leader_id : Nat) (timestamp : Nat)
  | Heartbeat (leader_id : Nat) (successor_id : Option Nat) (timestamp : Nat)
  | HeartbeatAck (sender_id : Nat) (timestamp : Nat)
deriving Repr, DecidableEq

/-- The `NodeState` enum of `main.rs` (lines 45-50). -/
inductive NodeState where
  | Follower
  | Candidate
  | Leader
deriving Repr, DecidableEq

/-- The mutable per-node state of the `Node` struct of `main.rs` (lines 63-74).
Addresses are abstracted away: `all_nodes` keeps only the configured ids,
since every send first looks the destination up in that map. -/
structure Node where
  id : Nat
  all_nodes : List Nat
  state : NodeState
  current_leader : Option Nat
  successor_hint : Option Nat
  active_nodes : List (Nat × Nat)
  last_heartbeat : Nat
  election_in_progress : Bool
deriving Repr, DecidableEq

/-- `HashMap::insert`: record `last_seen = v` for key `k`, replacing any
previous entry for `k`. -/
def insertActive (m : List (Nat × Nat)) (k v : Nat) : List (Nat × Nat) :=
  (k, v) :: m.filter (fun p => decide (p.1 ≠ k))

/-- `if let Some(addr) = self.all_nodes.get(&dest) { self.send_message(addr, msg) }`:
the send happens only when the destination id is configured. -/
def sendTo (allNodes : List Nat) (dest : Nat) (msg : Message) : List (Nat × Message) :=
  if dest ∈ allNodes then [(dest, msg)] else []

/-- `Vec::dedup`: remove consecutive duplicates (the vector is sorted first
in the source, so this removes all duplicates there). -/
def dedupConsec : List Nat → List Nat
  | [] => []
  | [a] => [a]
  | a :: b :: t => if a = b then dedupConsec (b :: t) else a :: dedupConsec (b :: t)

/-- Insert `x` into a descending-sorted list, keeping it descending. -/
def insertDesc (x : Nat) : List Nat → List Nat
  | [] => [x]
  | a :: t => if a ≤ x then x :: a :: t else a :: insertDesc x t

/-- `Vec::sort_unstable_by(|a, b| b.cmp(a))`: sort in descending order. On
`Nat`, equal elements are identical, so every comparison-correct sort yields
the same output list; insertion sort is used so the definition reduces by
kernel computation. -/
def sortDesc : List Nat → List Nat
  | [] => []
  | a :: t => insertDesc a (sortDesc t)

/-- `Node::calculate_successor` (`main.rs` lines 142-157): gather the keys of
`active_nodes`, push `self.id`, sort descending (`sort_unstable_by(|a, b| b.cmp(a))`),
`dedup`, and return the first id different from `exclude_id`. -/
def calculate_successor (selfId : Nat) (active_nodes : List (Nat × Nat))
    (exclude_id : Nat) : Option Nat :=
  (dedupConsec (sortDesc (active_nodes.map Prod.fst ++ [selfId]))).find?
    (fun i => i != exclude_id)

/-- Result of one call to `Node::handle_message`: the updated node, the
messages sent, and whether the handler invoked `start_election` (the Election
arm calls it inline; the election itself interleaves with the network and is
modelled separately by `start_election_model`). -/
structure HandlerResult where
  node : Node
  sends : List (Nat × Message)
  startsElection : Bool
deriving Repr, DecidableEq

/-- `Node::handle_message` (`main.rs` lines 382-483), arm by arm. -/
def handle_message (n : Node) (msg : Message) (now : Nat) : HandlerResult :=
  match msg with
  | .Discovery sender_id _ =>
      let n1 := { n with active_nodes := insertActive n.active_nodes sender_id now }
      if n.state = NodeState.Leader then
        { node := n1,
          sends := sendTo n.all_nodes sender_id (.LeaderAnnounce n.id now),
          startsElection := false }
      else
        { node := n1, sends := [], startsElection := false }
  | .LeaderAnnounce leader_id _ =>
      match n.current_leader with
      | none =>
          { node := { n with current_leader := some leader_id,
                             state := NodeState.Follower, last_heartbeat := now },
            sends := [], startsElection := false }
      | some c =>
          if c < leader_id then
            { node := { n with current_leader := some leader_id,
                               state := NodeState.Follower, last_heartbeat := now },
              sends := [], startsElection := false }
          else
            { node := n, sends := [], startsElection := false }
  | .Election sender_id _ =>
      let n1 := { n with active_nodes := insertActive n.active_nodes sender_id now }
      if sender_id < n.id then
        { node := n1,
          sends := sendTo n.all_nodes sender_id (.ElectionOk n.id now),
          startsElection := !n.election_in_progress }
      else
        { node := n1, sends := [], startsElection := false }
  | .ElectionOk _ _ =>
      { node := { n with state := NodeState.Follower },
        sends := [], startsElection := false }
  | .Coordinator leader_id _ =>
      { node := { n with current_leader := some leader_id,
                         state := NodeState.Follower, last_heartbeat := now },
        sends := [], startsElection := false }
  | .Heartbeat leader_id successor_id _ =>
      if n.current_leader = some leader_id then
        { node := { n with last_heartbeat := now, successor_hint := successor_id },
          sends := sendTo n.all_nodes leader_id (.HeartbeatAck n.id now),
          startsElection := false }
      else
        { node := n, sends := [], startsElection := false }
  | .HeartbeatAck sender_id _ =>
      if n.state = NodeState.Leader then
        { node := { n with active_nodes := insertActive n.active_nodes sender_id now },
          sends := [], startsElection := false }
      else
        { node := n, sends := [], startsElection := false }

/-- `Node::become_leader` (`main.rs` lines 275-298): set state, leader,
heartbeat clock, clear the successor hint and `active_nodes`, then broadcast
`Coordinator` to every other configured node. -/
def become_leader (n : Node) (now : Nat) : Node × List (Nat × Message) :=
  ({ n with state := NodeState.Leader, current_leader := some n.id,
            last_heartbeat := now, successor_hint := none, active_nodes := [] },
   (n.all_nodes.filter (fun i => decide (i ≠ n.id))).map
     (fun i => (i, Message.Coordinator n.id now)))

/-- Fold the message handler over the messages a node processes while one of
its tasks is sleeping; each message comes with its arrival time. -/
def applyMsgs (n : Node) (msgs : List (Message × Nat)) : Node :=
  msgs.foldl (fun m p => (handle_message m p.1 p.2).node) n

/-- Outcome of one run of `Node::start_election`. -/
structure ElectionRun where
  node : Node
  sends : List (Nat × Message)
  tookFastLeaderReturn : Bool
  enteredClassicPhase : Bool
deriving Repr, DecidableEq

/-- The classic-Bully tail of `Node::start_election` (`main.rs` lines 237-273):
if no configured node has a higher id, become leader; otherwise send
`Election` to every higher node, process `duringWait` while sleeping 1500 ms,
and afterwards become leader whenever the state is not already `Leader`. -/
def classic_phase (n : Node) (now : Nat) (duringWait : List (Message × Nat))
    (sendsSoFar : List (Nat × Message)) : ElectionRun :=
  let higher := n.all_nodes.filter (fun i => decide (n.id < i))
  if higher = [] then
    let bl := become_leader n now
    { node := { bl.1 with election_in_progress := false },
      sends := sendsSoFar ++ bl.2,
      tookFastLeaderReturn := false, enteredClassicPhase := true }
  else
    let sendsE := higher.map (fun i => (i, Message.Election n.id now))
    let n2 := applyMsgs n duringWait
    if n2.state = NodeState.Leader then
      { node := { n2 with election_in_progress := false },
        sends := sendsSoFar ++ sendsE,
        tookFastLeaderReturn := false, enteredClassicPhase := true }
    else
      let bl := become_leader n2 now
      { node := { bl.1 with election_in_progress := false },
        sends := sendsSoFar ++ sendsE ++ bl.2,
        tookFastLeaderReturn := false, enteredClassicPhase := true }

/-- `Node::start_election` (`main.rs` lines 187-273). The sleeps are modelled
by the lists of messages the node processes during each wait
(`duringFastWait` for the 800 ms successor wait, `duringClassicWait` for the
1500 ms classic wait). The source checks `state == Leader` after the
successor wait and returns early only then. -/
def start_election_model (n : Node) (now : Nat)
    (duringFastWait duringClassicWait : List (Message × Nat)) : ElectionRun :=
  if n.election_in_progress then
    { node := n, sends := [], tookFastLeaderReturn := false,
      enteredClassicPhase := false }
  else
    let n1 := { n with election_in_progress := true }
    match n1.successor_hint with
    | some s =>
        if s = n1.id then
          let bl := become_leader n1 now
          { node := { bl.1 with election_in_progress := false }, sends := bl.2,
            tookFastLeaderReturn := false, enteredClassicPhase := false }
        else if n1.id < s then
          let sendsFast := sendTo n1.all_nodes s (Message.Election n1.id now)
          let n2 := applyMsgs n1 duringFastWait
          if n2.state = NodeState.Leader then
            { node := { n2 with election_in_progress := false },
              sends := sendsFast,
              tookFastLeaderReturn := true, enteredClassicPhase := false }
          else
            classic_phase n2 now duringClassicWait sendsFast
        else
          classic_phase n1 now duringClassicWait []
    | none => classic_phase n1 now duringClassicWait []

/-- One tick of the `Node::monitor_leader` loop (`main.rs` lines 336-363):
when the node is not the leader, more than 5 s have passed since
`last_heartbeat`, and no election is in progress, clear `current_leader` and
start an election. Otherwise the tick changes nothing. -/
def monitor_leader_tick (n : Node) (now : Nat)
    (duringFastWait duringClassicWait : List (Message × Nat)) : ElectionRun :=
  if n.state ≠ NodeState.Leader ∧ 5 < now - n.last_heartbeat ∧
      n.election_in_progress = false then
    start_election_model { n with current_leader := none } now
      duringFastWait duringClassicWait
  else
    { node := n, sends := [], tookFastLeaderReturn := false,
      enteredClassicPhase := false }

/-- One tick of the `Node::send_heartbeats` loop (`main.rs` lines 300-334):
a leader recomputes the successor (excluding `current_leader.unwrap()`) and
broadcasts a `Heartbeat` to every other configured node; `none` models both
a non-leader tick (which sends nothing) and the `unwrap` panic on a leader
without `current_leader`. -/
def send_heartbeats_tick (n : Node) (now : Nat) :
    Option (Option Nat × List (Nat × Message)) :=
  if n.state = NodeState.Leader then
    match n.current_leader with
    | some cl =>
        let successor_id := calculate_successor n.id n.active_nodes cl
        some (successor_id,
          (n.all_nodes.filter (fun i => decide (i ≠ n.id))).map
            (fun i => (i, Message.Heartbeat n.id successor_id now)))
    | none => none
  else none

/-- The freshly constructed node of `Node::new` (`main.rs` lines 94-105). -/
def Node.start (i : Nat) (ns : List Nat) (t0 : Nat) : Node :=
  { id := i, all_nodes := ns, state := NodeState.Follower,
    current_leader := none, successor_hint := none, active_nodes := [],
    last_heartbeat := t0, election_in_progress := false }

/-- The candidate ids from which a successor is picked: the keys of
`active_nodes` together with the node's own id. -/
def successorCandidates (n : Node) : List Nat :=
  n.active_nodes.map Prod.fst ++ [n.id]

/-- Modelled from the claim text of C4 (spec section 4.4): the maximum id
among the peers whose `last_seen` is within 2×H = 4 s of `now`, excluding
`selfId`; `none` when no such peer exists. This is the comparison point for
the refinement check, not a function of the source. -/
def spec_alive_successor (selfId : Nat) (active : List (Nat × Nat)) (now : Nat) :
    Option Nat :=
  (((active.filter (fun p => decide (now - p.2 ≤ 4))).map Prod.fst).filter
      (fun x => decide (x ≠ selfId))).foldl
    (fun acc x =>
      match acc with
      | none => some x
      | some m => some (Nat.max m x)) none

/-- The invariant of C9: a node in the `Leader` state believes itself to be
the leader. -/
def leaderInv (n : Node) : Prop :=
  n.state = NodeState.Leader → n.current_leader = some n.id

/-- Characterization used by the amended C4: `succ` is the greatest id of
`ids` different from the excluded id `e`, and it is `none` exactly when every
id in `ids` equals `e`. -/
def isGreatestExcluding (ids : List Nat) (e : Nat) (succ : Option Nat) : Prop :=
  (succ = none ↔ ∀ x ∈ ids, x = e) ∧
  (∀ y, succ = some y → y ≠ e ∧ y ∈ ids ∧ ∀ x ∈ ids, x ≠ e → x ≤ y)

/-- Concrete node for the C1 counterexample: it already knows leader 5. -/
def nC1 : Node :=
  { id := 1, all_nodes := [0, 1, 2], state := NodeState.Follower,
    current_leader := some 5, successor_hint := none, active_nodes := [],
    last_heartbeat := 0, election_in_progress := false }

/-- Concrete node for the C5 counterexample: leader 2 with a pending election. -/
def nC5 : Node :=
  { id := 2, all_nodes := [0, 1, 2], state := NodeState.Leader,
    current_leader := some 2, successor_hint := none, active_nodes := [],
    last_heartbeat := 0, election_in_progress := true }

/-- Concrete node for the C7 witness: follower of leader 2. -/
def nC7 : Node :=
  { id := 0, all_nodes := [0, 1, 2], state := NodeState.Follower,
    current_leader := some 2, successor_hint := none, active_nodes := [],
    last_heartbeat := 0, election_in_progress := false }

/-- Concrete node for the C8 counterexample and witness. -/
def nC8 : Node :=
  { id := 3, all_nodes := [0, 1, 2, 3, 5], state := NodeState.Follower,
    current_leader := some 5, successor_hint := none, active_nodes := [],
    last_heartbeat := 0, election_in_progress := false }

/-- Concrete node for the C10 witness: follower of leader 1. -/
def nC10 : Node :=
  { id := 0, all_nodes := [0, 1, 2], state := NodeState.Follower,
    current_leader := some 1, successor_hint := none, active_nodes := [],
    last_heartbeat := 0, election_in_progress := false }

/-- Concrete node for the C3 evaluation: follower with successor hint 2. -/
def nC3 : Node :=
  { id := 1, all_nodes := [0, 1, 2], state := NodeState.Follower,
    current_leader := none, successor_hint := some 2, active_nodes := [],
    last_heartbeat := 0, election_in_progress := false }

/-- Concrete leader node for the C4 counterexample: peer 1 was last seen at
time 0, and the tick happens at time 100, far beyond the 4 s aliveness
window of the claim. -/
def nC4 : Node :=
  { id := 2, all_nodes := [0, 1, 2], state := NodeState.Leader,
    current_leader := some 2, successor_hint := none, active_nodes := [(1, 0)],
    last_heartbeat := 0, election_in_progress := false }

/-- Concrete leader node for the C4 witness: peers 0 and 1 acked recently. -/
def nC4w : Node :=
  { id := 2, all_nodes := [0, 1, 2], state := NodeState.Leader,
    current_leader := some 2, successor_hint := none,
    active_nodes := [(1, 50), (0, 49)], last_heartbeat := 0,
    election_in_progress := false }

/-- Concrete node for the C9 witness: a plain follower. -/
def nC9 : Node :=
  { id := 0, all_nodes := [0, 1, 2], state := NodeState.Follower,
    current_leader := some 2, successor_hint := none, active_nodes := [],
    last_heartbeat := 0, election_in_progress := false }

/-- C1 counterexample: node `nC1` knows leader 5, yet handling
`Coordinator { leader_id = 3 }` (3 < 5) replaces `current_leader` by 3 and
refreshes `last_heartbeat`, so the message is not ignored as the claim
states. -/
theorem C1_counterexample :
    ¬ ((handle_message nC1 (Message.Coordinator 3 0) 7).node.current_leader
          = nC1.current_leader ∧
       (handle_message nC1 (Message.Coordinator 3 0) 7).node.last_heartbeat
          = nC1.last_heartbeat) := by
  decide

/-- C1 (amended): a `Coordinator { leader_id }` message is never ignored:
handling it always sets `current_leader = some leader_id`, sets the state to
`Follower` and sets `last_heartbeat` to the receipt time, whatever leader
was previously known; consequently, after receiving `Coordinator` messages
with ids A then B, the accepted leader id is B (not necessarily
≥ max(A, B)). -/
theorem C1_coordinator_always_accepted (n : Node) (A B tA tB nowA nowB : Nat) :
    ((handle_message n (Message.Coordinator A tA) nowA).node.current_leader
        = some A ∧
     (handle_message n (Message.Coordinator A tA) nowA).node.state
        = NodeState.Follower ∧
     (handle_message n (Message.Coordinator A tA) nowA).node.last_heartbeat
        = nowA) ∧
    ((handle_message (handle_message n (Message.Coordinator A tA) nowA).node
        (Message.Coordinator B tB) nowB).node.current_leader = some B ∧
     (handle_message (handle_message n (Message.Coordinator A tA) nowA).node
        (Message.Coordinator B tB) nowB).node.state = NodeState.Follower ∧
     (handle_message (handle_message n (Message.Coordinator A tA) nowA).node
        (Message.Coordinator B tB) nowB).node.last_heartbeat = nowB) :=
  ⟨⟨rfl, rfl, rfl⟩, ⟨rfl, rfl, rfl⟩⟩

/-- C5 counterexample: node `nC5` has id 2 and is the leader with an election
in progress; handling `Coordinator { leader_id = 2 }` (its own id) demotes it
to `Follower` anyway and leaves `election_in_progress` set, contradicting
both the "unless leader_id equals the node's own id" clause and the
"clears the election_in_progress flag" clause of the claim. -/
theorem C5_counterexample :
    (handle_message nC5 (Message.Coordinator 2 0) 9).node.state
        ≠ NodeState.Leader ∧
    (handle_message nC5 (Message.Coordinator 2 0) 9).node.election_in_progress
        ≠ false := by
  decide

/-- C5 (amended): handling `Coordinator { leader_id }` sets
`current_leader = some leader_id`, sets the state to `Follower`
unconditionally (even when `leader_id` equals the node's own id), sets
`last_heartbeat` to the current time, sends nothing, and leaves
`election_in_progress` and every other field unchanged. -/
theorem C5_coordinator_effect (n : Node) (lid ts now : Nat) :
    handle_message n (Message.Coordinator lid ts) now =
      { node := { n with current_leader := some lid,
                         state := NodeState.Follower, last_heartbeat := now },
        sends := [], startsElection := false } :=
  rfl

/-- C6: handling the same `Coordinator { leader_id }` message twice in a row
leaves `current_leader` and the state unchanged relative to the state after
the first receipt, changes no other field, and only refreshes
`last_heartbeat` to the time of the second receipt. -/
theorem C6_coordinator_idempotent (n : Node) (lid ts now1 now2 : Nat) :
    ((handle_message (handle_message n (Message.Coordinator lid ts) now1).node
        (Message.Coordinator lid ts) now2).node.current_leader
      = (handle_message n (Message.Coordinator lid ts) now1).node.current_leader) ∧
    ((handle_message (handle_message n (Message.Coordinator lid ts) now1).node
        (Message.Coordinator lid ts) now2).node.state
      = (handle_message n (Message.Coordinator lid ts) now1).node.state) ∧
    ((handle_message (handle_message n (Message.Coordinator lid ts) now1).node
        (Message.Coordinator lid ts) now2).node.successor_hint
      = (handle_message n (Message.Coordinator lid ts) now1).node.successor_hint) ∧
    ((handle_message (handle_message n (Message.Coordinator lid ts) now1).node
        (Message.Coordinator lid ts) now2).node.active_nodes
      = (handle_message n (Message.Coordinator lid ts) now1).node.active_nodes) ∧
    ((handle_message (handle_message n (Message.Coordinator lid ts) now1).node
        (Message.Coordinator lid ts) now2).node.election_in_progress
      = (handle_message n (Message.Coordinator lid ts) now1).node.election_in_progress) ∧
    ((handle_message (handle_message n (Message.Coordinator lid ts) now1).node
        (Message.Coordinator lid ts) now2).node.last_heartbeat = now2) :=
  ⟨rfl, rfl, rfl, rfl, rfl, rfl⟩

/-- C7: a `Heartbeat` whose `leader_id` matches `current_leader` updates only
`last_heartbeat` and `successor_hint` and answers the leader (when it is a
configured node) with a `HeartbeatAck`; a `Heartbeat` from any other id
leaves the whole node state unchanged and sends nothing. -/
theorem C7_heartbeat_frame (n : Node) (lid : Nat) (succ : Option Nat)
    (ts now : Nat) :
    (n.current_leader = some lid → lid ∈ n.all_nodes →
      handle_message n (Message.Heartbeat lid succ ts) now =
        { node := { n with last_heartbeat := now, successor_hint := succ },
          sends := [(lid, Message.HeartbeatAck n.id now)],
          startsElection := false }) ∧
    (n.current_leader ≠ some lid →
      handle_message n (Message.Heartbeat lid succ ts) now =
        { node := n, sends := [], startsElection := false }) := by
  constructor
  · intro h hmem
    simp [handle_message, h, sendTo, hmem]
  · intro h
    simp [handle_message, h]

/-- C7 witness: instantiates `C7_heartbeat_frame` on the concrete follower
`nC7`: a heartbeat from its leader 2 is acknowledged, a heartbeat from
node 1 is ignored. -/
theorem C7_witness :
    (nC7.current_leader = some 2 ∧ 2 ∈ nC7.all_nodes ∧
      handle_message nC7 (Message.Heartbeat 2 (some 1) 0) 5 =
        { node := { nC7 with last_heartbeat := 5, successor_hint := some 1 },
          sends := [(2, Message.HeartbeatAck nC7.id 5)],
          startsElection := false }) ∧
    (nC7.current_leader ≠ some 1 ∧
      handle_message nC7 (Message.Heartbeat 1 none 0) 5 =
        { node := nC7, sends := [], startsElection := false }) :=
  ⟨⟨by decide, by decide,
      (C7_heartbeat_frame nC7 2 (some 1) 0 5).1 (by decide) (by decide)⟩,
   ⟨by decide, (C7_heartbeat_frame nC7 1 none 0 5).2 (by decide)⟩⟩

/-- C8 counterexample: node `nC8` has id 3; handling
`Election { sender_id = 5 }` with 5 ≥ 3 does change the node state (the
sender is recorded in `active_nodes`), so the message is not ignored as the
claim states. -/
theorem C8_counterexample :
    (handle_message nC8 (Message.Election 5 0) 10).node ≠ nC8 := by
  decide

/-- C8 (amended): handling `Election { sender_id }` always records the sender
in `active_nodes` with `last_seen = now`; when `sender_id` is below the
node's own id it additionally sends an `ElectionOk` reply to the sender
(when the sender is configured) and initiates its own election exactly when
no election is in progress; when `sender_id` is not below the node's own id
nothing is sent and no election is started, but the sender is still recorded
in `active_nodes`. -/
theorem C8_election_effect (n : Node) (sid ts now : Nat) :
    (sid < n.id →
      handle_message n (Message.Election sid ts) now =
        { node := { n with active_nodes := insertActive n.active_nodes sid now },
          sends := sendTo n.all_nodes sid (Message.ElectionOk n.id now),
          startsElection := !n.election_in_progress }) ∧
    (¬ sid < n.id →
      handle_message n (Message.Election sid ts) now =
        { node := { n with active_nodes := insertActive n.active_nodes sid now },
          sends := [], startsElection := false }) := by
  constructor
  · intro h
    simp [handle_message, h]
  · intro h
    simp [handle_message, h]

/-- C8 witness: instantiates `C8_election_effect` on the concrete node `nC8`
(id 3) for a lower sender (1) and a higher sender (5). -/
theorem C8_witness :
    (1 < nC8.id ∧
      handle_message nC8 (Message.Election 1 0) 7 =
        { node := { nC8 with active_nodes := insertActive nC8.active_nodes 1 7 },
          sends := sendTo nC8.all_nodes 1 (Message.ElectionOk nC8.id 7),
          startsElection := !nC8.election_in_progress }) ∧
    (¬ 5 < nC8.id ∧
      handle_message nC8 (Message.Election 5 0) 7 =
        { node := { nC8 with active_nodes := insertActive nC8.active_nodes 5 7 },
          sends := [], startsElection := false }) :=
  ⟨⟨by decide, (C8_election_effect nC8 1 0 7).1 (by decide)⟩,
   ⟨by decide, (C8_election_effect nC8 5 0 7).2 (by decide)⟩⟩

/-- C10: handling `LeaderAnnounce { leader_id }` updates `current_leader`,
state and `last_heartbeat` exactly when the node knows no leader or
`leader_id` is strictly greater than the known leader's id; otherwise the
whole node state is unchanged; nothing is ever sent, and the known leader id
never decreases across `LeaderAnnounce` receipts. -/
theorem C10_leader_announce_monotone (n : Node) (lid ts now : Nat) :
    (n.current_leader = none →
      handle_message n (Message.LeaderAnnounce lid ts) now =
        { node := { n with current_leader := some lid,
                           state := NodeState.Follower, last_heartbeat := now },
          sends := [], startsElection := false }) ∧
    (∀ c, n.current_leader = some c →
      (c < lid →
        handle_message n (Message.LeaderAnnounce lid ts) now =
          { node := { n with current_leader := some lid,
                             state := NodeState.Follower, last_heartbeat := now },
            sends := [], startsElection := false }) ∧
      (¬ c < lid →
        handle_message n (Message.LeaderAnnounce lid ts) now =
          { node := n, sends := [], startsElection := false }) ∧
      (∃ c2, (handle_message n (Message.LeaderAnnounce lid ts) now).node.current_leader
          = some c2 ∧ c ≤ c2)) := by
  constructor
  · intro h
    simp [handle_message, h]
  · intro c h
    refine ⟨fun hlt => by simp [handle_message, h, hlt],
            fun hge => by simp [handle_message, h, hge], ?_⟩
    by_cases hlt : c < lid
    · exact ⟨lid, by simp [handle_message, h, hlt], Nat.le_of_lt hlt⟩
    · exact ⟨c, by simp [handle_message, h, hlt], Nat.le_refl c⟩

/-- C10 witness: instantiates `C10_leader_announce_monotone` on the concrete
node `nC10` (known leader 1): an announcement of 2 is accepted, an
announcement of 0 is ignored. -/
theorem C10_witness :
    (nC10.current_leader = some 1 ∧ 1 < 2 ∧
      handle_message nC10 (Message.LeaderAnnounce 2 0) 9 =
        { node := { nC10 with current_leader := some 2,
                              state := NodeState.Follower, last_heartbeat := 9 },
          sends := [], startsElection := false }) ∧
    (¬ (1 : Nat) < 0 ∧
      handle_message nC10 (Message.LeaderAnnounce 0 0) 9 =
        { node := nC10, sends := [], startsElection := false }) :=
  ⟨⟨by decide, by decide,
      (((C10_leader_announce_monotone nC10 2 0 9).2 1 (by decide)).1 (by decide))⟩,
   ⟨by decide,
      (((C10_leader_announce_monotone nC10 0 0 9).2 1 (by decide)).2.1 (by decide))⟩⟩

/-- C3: the claim (matching the spec's fast-path description) says that when
a node starts an election with `successor_hint = some s`, `s` above its own
id, and an `ElectionOk` from `s` is processed during the 800 ms wait, the
node ends up a `Follower` and `start_election` returns without the classic
phase. The source instead returns early only when the state equals `Leader`
after the wait; processing the `ElectionOk` sets the state to `Follower`, so
the node falls through to the classic phase and, with no further messages,
even becomes leader. This evaluates the model at the concrete failing input
`nC3` (id 1, hint 2, `ElectionOk` from 2 arriving during the wait). -/
theorem C3_code_bug_eval :
    (applyMsgs { nC3 with election_in_progress := true }
        [(Message.ElectionOk 2 10, 10)]).state = NodeState.Follower ∧
    (start_election_model nC3 10 [(Message.ElectionOk 2 10, 10)] []).tookFastLeaderReturn
        = false ∧
    (start_election_model nC3 10 [(Message.ElectionOk 2 10, 10)] []).enteredClassicPhase
        = true ∧
    (start_election_model nC3 10 [(Message.ElectionOk 2 10, 10)] []).node.state
        = NodeState.Leader := by
  decide

theorem leaderInv_handle_message (n : Node) (msg : Message) (now : Nat)
    (h : leaderInv n) : leaderInv (handle_message n msg now).node := by
  unfold leaderInv at h ⊢
  cases msg <;> simp only [handle_message] <;> (try split) <;> (try split) <;>
    intro hs <;>
    first
      | exact h hs
      | simp at hs

theorem leaderInv_applyMsgs (msgs : List (Message × Nat)) :
    ∀ n : Node, leaderInv n → leaderInv (applyMsgs n msgs) := by
  induction msgs with
  | nil => exact fun n h => h
  | cons p t ih =>
      exact fun n h => ih (handle_message n p.1 p.2).node
        (leaderInv_handle_message n p.1 p.2 h)

theorem leaderInv_become_leader (n : Node) (now : Nat) :
    leaderInv (become_leader n now).1 :=
  fun _ => rfl

theorem leaderInv_classic_phase (n : Node) (now : Nat)
    (dW : List (Message × Nat)) (s0 : List (Nat × Message)) (h : leaderInv n) :
    leaderInv (classic_phase n now dW s0).node := by
  simp only [classic_phase]
  split
  · exact fun _ => rfl
  · split
    · exact fun hs => leaderInv_applyMsgs dW n h hs
    · exact fun _ => rfl

theorem leaderInv_start_election (n : Node) (now : Nat)
    (dF dC : List (Message × Nat)) (h : leaderInv n) :
    leaderInv (start_election_model n now dF dC).node := by
  simp only [start_election_model]
  split
  · exact fun hs => h hs
  · split
    · split
      · exact fun _ => rfl
      · split
        · split
          · exact fun hs =>
              leaderInv_applyMsgs dF { n with election_in_progress := true }
                (fun hs2 => h hs2) hs
          · exact leaderInv_classic_phase _ now dC _
              (leaderInv_applyMsgs dF { n with election_in_progress := true }
                (fun hs2 => h hs2))
        · exact leaderInv_classic_phase _ now dC _ (fun hs2 => h hs2)
    · exact leaderInv_classic_phase _ now dC _ (fun hs2 => h hs2)

theorem leaderInv_monitor_leader_tick (n : Node) (now : Nat)
    (dF dC : List (Message × Nat)) (h : leaderInv n) :
    leaderInv (monitor_leader_tick n now dF dC).node := by
  simp only [monitor_leader_tick]
  split
  · next hcond =>
      exact leaderInv_start_election _ now dF dC (fun hs => absurd hs hcond.1)
  · exact h

/-- C9: the invariant "state = Leader implies current_leader = some(own id)"
holds of a fresh node and is preserved by every message-handler branch, by
`become_leader`, by a full `start_election` run (with arbitrary messages
processed during its waits), and by the leader-timeout path of
`monitor_leader`; hence it holds in every reachable state of a node. -/
theorem C9_leader_invariant (n : Node) (msg : Message) (i now t0 : Nat)
    (ns : List Nat) (dF dC : List (Message × Nat)) (h : leaderInv n) :
    leaderInv (Node.start i ns t0) ∧
    leaderInv (handle_message n msg now).node ∧
    leaderInv (become_leader n now).1 ∧
    leaderInv (start_election_model n now dF dC).node ∧
    leaderInv (monitor_leader_tick n now dF dC).node :=
  ⟨(fun hs => nomatch hs),
   leaderInv_handle_message n msg now h,
   leaderInv_become_leader n now,
   leaderInv_start_election n now dF dC h,
   leaderInv_monitor_leader_tick n now dF dC h⟩

/-- C9 witness: instantiates `C9_leader_invariant` on the concrete follower
`nC9` receiving a `Coordinator` message. -/
theorem C9_witness :
    leaderInv nC9 ∧ leaderInv (handle_message nC9 (Message.Coordinator 2 0) 5).node :=
  ⟨(fun hs => nomatch hs),
   (C9_leader_invariant nC9 (Message.Coordinator 2 0) 0 5 0 [] [] []
      (fun hs => nomatch hs)).2.1⟩

theorem dedupConsec_find? (p : Nat → Bool) :
    ∀ l : List Nat, (dedupConsec l).find? p = l.find? p
  | [] => rfl
  | [_] => rfl
  | a :: b :: t => by
    rw [dedupConsec]
    by_cases hab : a = b
    · rw [if_pos hab, dedupConsec_find? p (b :: t)]
      subst hab
      cases hpa : p a
      · rw [List.find?_cons_of_neg _ (by simp [hpa]),
            List.find?_cons_of_neg _ (by simp [hpa]),
            List.find?_cons_of_neg _ (by simp [hpa])]
      · rw [List.find?_cons_of_pos _ hpa, List.find?_cons_of_pos _ hpa]
    · rw [if_neg hab]
      cases hpa : p a
      · rw [List.find?_cons_of_neg _ (by simp [hpa]),
            List.find?_cons_of_neg _ (by simp [hpa]),
            dedupConsec_find? p (b :: t)]
      · rw [List.find?_cons_of_pos _ hpa, List.find?_cons_of_pos _ hpa]

theorem find?_bne_is_max (e : Nat) :
    ∀ l : List Nat, l.Pairwise (fun a b => b ≤ a) →
      ∀ y, l.find? (fun x => x != e) = some y →
        y ≠ e ∧ y ∈ l ∧ ∀ x ∈ l, x ≠ e → x ≤ y := by
  intro l
  induction l with
  | nil => intro _ y hy; simp at hy
  | cons a t ih =>
      intro hs y hy
      rw [List.pairwise_cons] at hs
      obtain ⟨ha, ht⟩ := hs
      by_cases hae : a = e
      · rw [List.find?_cons_of_neg _ (by simp [hae])] at hy
        obtain ⟨h1, h2, h3⟩ := ih ht y hy
        refine ⟨h1, List.mem_cons_of_mem _ h2, ?_⟩
        intro x hx hxe
        rcases List.mem_cons.mp hx with h | h
        · exact absurd (h.trans hae) hxe
        · exact h3 x h hxe
      · rw [List.find?_cons_of_pos _ (by simp [hae])] at hy
        obtain rfl : a = y := by simpa using hy
        refine ⟨hae, List.mem_cons_self a t, ?_⟩
        intro x hx _
        rcases List.mem_cons.mp hx with h | h
        · exact Nat.le_of_eq h
        · exact ha x h

theorem mem_insertDesc (x y : Nat) :
    ∀ l : List Nat, (y ∈ insertDesc x l ↔ y = x ∨ y ∈ l)
  | [] => by simp [insertDesc]
  | a :: t => by
    rw [insertDesc]
    by_cases hax : a ≤ x
    · simp [hax]
    · simp only [if_neg hax, List.mem_cons, mem_insertDesc x y t]
      tauto

theorem mem_sortDesc (y : Nat) :
    ∀ l : List Nat, (y ∈ sortDesc l ↔ y ∈ l)
  | [] => Iff.rfl
  | a :: t => by
    rw [sortDesc, mem_insertDesc, mem_sortDesc y t, List.mem_cons]

theorem pairwise_insertDesc (x : Nat) :
    ∀ l : List Nat, l.Pairwise (fun a b => b ≤ a) →
      (insertDesc x l).Pairwise (fun a b => b ≤ a)
  | [], _ => by simp [insertDesc]
  | a :: t, h => by
    rw [List.pairwise_cons] at h
    obtain ⟨ha, ht⟩ := h
    rw [insertDesc]
    by_cases hax : a ≤ x
    · rw [if_pos hax, List.pairwise_cons]
      refine ⟨?_, List.pairwise_cons.mpr ⟨ha, ht⟩⟩
      intro b hb
      rcases List.mem_cons.mp hb with rfl | hbt
      · exact hax
      · exact Nat.le_trans (ha b hbt) hax
    · rw [if_neg hax, List.pairwise_cons]
      refine ⟨?_, pairwise_insertDesc x t ht⟩
      intro b hb
      rcases (mem_insertDesc x b t).mp hb with rfl | hbt
      · omega
      · exact ha b hbt

theorem sorted_sortDesc :
    ∀ l : List Nat, (sortDesc l).Pairwise (fun a b => b ≤ a)
  | [] => List.Pairwise.nil
  | a :: t => pairwise_insertDesc a (sortDesc t) (sorted_sortDesc t)

theorem calculate_successor_greatest (selfId e : Nat)
    (active : List (Nat × Nat)) :
    isGreatestExcluding (active.map Prod.fst ++ [selfId]) e
      (calculate_successor selfId active e) := by
  unfold calculate_successor isGreatestExcluding
  rw [dedupConsec_find?]
  constructor
  · rw [List.find?_eq_none]
    constructor
    · intro h x hx
      have := h x ((mem_sortDesc x _).mpr hx)
      simpa using this
    · intro h x hx
      simpa using h x ((mem_sortDesc x _).mp hx)
  · intro y hy
    obtain ⟨h1, h2, h3⟩ :=
      find?_bne_is_max e _ (sorted_sortDesc (active.map Prod.fst ++ [selfId])) y hy
    exact ⟨h1, (mem_sortDesc y _).mp h2,
      fun x hx hxe => h3 x ((mem_sortDesc x _).mpr hx) hxe⟩

/-- C4 counterexample: leader `nC4` (id 2) last saw peer 1 at time 0; at a
heartbeat tick at time 100 the source still emits `successor_id = some 1`,
while the claim's 2×H = 4 s aliveness filter (`spec_alive_successor`) yields
`none`, so the emitted successor does not equal the claimed value. -/
theorem C4_counterexample :
    send_heartbeats_tick nC4 100 =
      some (some 1, [(0, Message.Heartbeat 2 (some 1) 100),
                     (1, Message.Heartbeat 2 (some 1) 100)]) ∧
    spec_alive_successor 2 [(1, 0)] 100 = none ∧
    (some 1 : Option Nat) ≠ none := by
  decide

/-- C4 (amended): on every heartbeat tick of a node in the `Leader` state
whose `current_leader` is itself (the C9 invariant), the emitted
`successor_id` is the maximum NodeId among the keys of `active_nodes`
together with the node's own id, excluding the node's own id, with no
staleness filter on `last_seen` (entries persist once inserted); it is
`none` exactly when every such candidate equals the node's own id. -/
theorem C4_heartbeat_successor (n : Node) (now : Nat)
    (h1 : n.state = NodeState.Leader) (h2 : n.current_leader = some n.id) :
    send_heartbeats_tick n now =
      some (calculate_successor n.id n.active_nodes n.id,
        (n.all_nodes.filter (fun i => decide (i ≠ n.id))).map
          (fun i => (i, Message.Heartbeat n.id
            (calculate_successor n.id n.active_nodes n.id) now))) ∧
    isGreatestExcluding (successorCandidates n) n.id
      (calculate_successor n.id n.active_nodes n.id) := by
  constructor
  · simp [send_heartbeats_tick, h1, h2]
  · exact calculate_successor_greatest n.id n.id n.active_nodes

/-- C4 witness: instantiates `C4_heartbeat_successor` on the concrete leader
`nC4w`, whose peers 0 and 1 have acked. -/
theorem C4_witness :
    nC4w.state = NodeState.Leader ∧ nC4w.current_leader = some nC4w.id ∧
    (send_heartbeats_tick nC4w 51 =
      some (calculate_successor nC4w.id nC4w.active_nodes nC4w.id,
        (nC4w.all_nodes.filter (fun i => decide (i ≠ nC4w.id))).map
          (fun i => (i, Message.Heartbeat nC4w.id
            (calculate_successor nC4w.id nC4w.active_nodes nC4w.id) 51))) ∧
     isGreatestExcluding (successorCandidates nC4w) nC4w.id
        (calculate_successor nC4w.id nC4w.active_nodes nC4w.id)) :=
  ⟨rfl, rfl, C4_heartbeat_successor nC4w 51 rfl rfl⟩
